import Mathlib

/-!
Verification of the slaw core library.

A shallow embedding of the slaw library (`src/vector.hpp`, `src/mem.hpp`,
`src/string.hpp`, `src/math.hpp`, `src/types.hpp`) together with proofs and
refutations of the specified properties.

Conventions of the embedding:
* `usize`/`isize` are 32-bit on this platform (`src/types.hpp`), so machine
  integers are modelled as `Nat`/`Int` with explicit `% 2^32` where the
  32-bit conversion matters.
* Pointers are modelled as `Nat` offsets from the heap base; a nullable
  pointer is an `Option Nat`.
* Heap memory holding block headers is a function `Nat → Header`; the C++
  writes through memory become pointwise functional updates.
* Loops (`while`) from the source are given explicit fuel.  Every theorem
  below either evaluates at concrete inputs with ample fuel, or is
  fuel-independent.
-/

namespace Slaw

/-! ## `Sequence<T>` / `Vector<T>` (`src/vector.hpp`)

The C++ `Vector<T>` is a triple `(data, size, capacity)` where `data` is an
array of `capacity` elements of which the first `size` are live.  We model
`data` as a `List α` of length `capacity`; a freshly `new[]`-ed slot holds
the (unobservable) `default` element. -/

structure Vec (α : Type) where
  data : List α
  size : Nat
  capacity : Nat
deriving Repr, DecidableEq

variable {α : Type} [Inhabited α]

/-- Constructor `Vector(usize initial_size = min_capacity)`: `data(new T[initial_size]),
size(0), capacity(initial_size)`. -/
def Vec.mkNew (initial_size : Nat) : Vec α :=
  { data := List.replicate initial_size default, size := 0,
    capacity := initial_size }

/-- Method `Vector::realloc(new_capacity)`: allocate a fresh array of
`new_capacity` elements, copy `min(size, new_capacity)` elements over,
keep `size`, set `capacity := new_capacity`. -/
def Vec.realloc (v : Vec α) (new_capacity : Nat) : Vec α :=
  let elements_to_copy := min v.size new_capacity
  { data := v.data.take elements_to_copy
      ++ List.replicate (new_capacity - elements_to_copy) default,
    size := v.size, capacity := new_capacity }

/-- The doubling loop of `Vector::reserve`:
`while (new_size > new_capacity) { new_capacity *= 2; }`.
Returns `none` when the loop is still running after `fuel` iterations. -/
def growCap : Nat → Nat → Nat → Option Nat
  | 0, new_size, new_capacity =>
      if new_size > new_capacity then none else some new_capacity
  | fuel + 1, new_size, new_capacity =>
      if new_size > new_capacity then growCap fuel new_size (new_capacity * 2)
      else some new_capacity

/-- Method `Vector::reserve(extra_size)`: return unchanged if
`size + extra_size <= capacity`; otherwise double the capacity, starting
from `capacity * 2`, until it fits, then `realloc`.  `none` models a
non-terminating doubling loop. -/
def Vec.reserve (fuel : Nat) (v : Vec α) (extra_size : Nat) :
    Option (Vec α) :=
  if v.size + extra_size ≤ v.capacity then some v
  else
    match growCap fuel (v.size + extra_size) (v.capacity * 2) with
    | none => none
    | some c => some (v.realloc c)

/-- Method `Vector::clear()`: `size = 0; capacity = 0; delete[] data;
data = nullptr;`. -/
def Vec.clear (_v : Vec α) : Vec α :=
  { data := [], size := 0, capacity := 0 }

/-- The copy loop of `Vector::attach`:
`for (i = 0; i < vector.size; i++) { data[size++] = vector[i]; }`,
structurally recursing on the number of iterations left
(`vector.size - i`). -/
def attachLoop (wdata : List α) : Nat → Vec α → Nat → Vec α
  | 0, v, _ => v
  | remaining + 1, v, i =>
    attachLoop wdata remaining
      { v with
          data := v.data.set v.size (wdata.getD i default),
          size := v.size + 1 } (i + 1)

/-- Method `Vector::attach(vector)`: `reserve(vector.size)`, copy the elements in
with `data[size++] = vector[i]`, then execute the source's final line
`size = vector.size;`. -/
def Vec.attach (fuel : Nat) (v w : Vec α) : Option (Vec α) :=
  match v.reserve fuel w.size with
  | none => none
  | some v' =>
    let v'' := attachLoop w.data w.size v' 0
    some { v'' with size := w.size }

/-- Method `Vector::fill(size, value)`: construct `Vector<T> result(size)` (so
`result.size = 0`, `result.capacity = size`), then write
`result[i] = value` through `operator[]` for each `i < size`, and return
`result`. -/
def Vec.fill (size : Nat) (value : α) : Vec α :=
  let result : Vec α := Vec.mkNew size
  (List.range size).foldl
    (fun r i => { r with data := r.data.set i value }) result

/-! ### `rotate` and the binary gcd (`src/math.hpp`, `src/vector.hpp`)

`Vector::rotate(isize shift)` first executes `shift %= size`.  Since
`shift` is `isize` (= `i32`) and `size` is `usize` (= `u32`), the usual
arithmetic conversions convert `shift` to `u32` before the modulo, i.e.
a negative shift becomes `2^32 + shift` first.  The subsequent
`if (shift < 0) shift += size;` branch is dead because the unsigned
modulo already lands in `[0, size)`. -/

/-- Function `ctz` (`src/math.hpp`): trailing-zero count, via platform intrinsics in
the source.  Only ever reached with a non-zero argument (the intrinsic is
undefined on 0); fuel 32 covers every `u32`. -/
def ctz : Nat → Nat → Nat
  | 0, _ => 0
  | fuel + 1, n => if n % 2 = 1 ∨ n = 0 then 0 else ctz fuel (n / 2) + 1

/-- The main loop of `gcd_impl` (`src/math.hpp`): repeatedly
`if (a > b) swap(a, b); b -= a; if (b == 0) return a << g;
b >>= ctz(b);`. -/
def steinLoop : Nat → Nat → Nat → Nat → Nat
  | 0, a, _, g => a <<< g
  | fuel + 1, a, b, g =>
    let p := if a > b then (b, a) else (a, b)
    let b' := p.2 - p.1
    if b' = 0 then p.1 <<< g
    else steinLoop fuel p.1 (b' >>> ctz 32 b') g

/-- Function `slaw::detail::gcd_impl` (`src/math.hpp`): Stein's binary gcd.
`rotate` instantiates `gcd` at the unsigned type `usize`, which calls
this directly. -/
def gcd_impl (fuel a b : Nat) : Nat :=
  if a = 0 then b
  else if b = 0 then a
  else
    let ctz_a := ctz 32 a
    let a' := a >>> ctz_a
    let ctz_b := ctz 32 b
    let b' := b >>> ctz_b
    steinLoop fuel a' b' (min ctz_a ctz_b)

/-- The inner `while (true)` loop of `Vector::rotate` for the ring that
starts at index `i`: walk `j → j + shift (mod size)` copying elements one
step backwards until the walk returns to `i`, then drop in the saved
`last_element`. -/
def ringLoop (shift size i : Nat) (last_element : α) :
    Nat → List α → Nat → List α
  | 0, data, _ => data
  | fuel + 1, data, j =>
    let next_index := j + shift
    let next_index :=
      if next_index ≥ size then next_index - size else next_index
    if next_index = i then data.set j last_element
    else ringLoop shift size i last_element fuel
      (data.set j (data.getD next_index default)) next_index

/-- Method `Vector::rotate(shift)`: normalise the shift (with the `u32`
conversion described above), compute `num_rings = gcd(size, shift)`, and
run the ring loop once per ring.  The source's inner loop terminates
after `size / num_rings` steps, so fuel `size + 1` is ample. -/
def Vec.rotate (v : Vec α) (shift : Int) : Vec α :=
  let shift1 : Nat := ((shift % (2 ^ 32 : Int)).toNat) % v.size
  let num_rings := gcd_impl 64 v.size shift1
  let data := (List.range num_rings).foldl
    (fun d i => ringLoop shift1 v.size i (d.getD i default) (v.size + 1) d i)
    v.data
  { v with data := data }

/-- Operator `Vector::operator=(const Vector &source)`.  The aliasing test
`this == &source` is not a function of the two values, so it is passed as
the flag `isSelf`.  The second component collects the backing arrays that
the operator `delete[]`s. -/
def Vec.copyAssign (v : Vec α) (source : Vec α) (isSelf : Bool) :
    Vec α × List (List α) :=
  if isSelf then (v, [])
  else
    ({ data := source.data.take source.size
         ++ List.replicate (source.capacity - source.size) default,
       size := source.size, capacity := source.capacity },
     [v.data])

/-- Operator `Vector::operator=(Vector &&source)`.  Returns the new `*this`, the
new state of `source`, and the `delete[]`-ed backing arrays. -/
def Vec.moveAssign (v : Vec α) (source : Vec α) (isSelf : Bool) :
    Vec α × Vec α × List (List α) :=
  if isSelf then (v, source, [])
  else
    ({ data := source.data, size := source.size,
       capacity := source.capacity },
     { data := [], size := 0, capacity := 0 },
     [v.data])

/-! ## The heap allocator (`src/mem.hpp`)

Pointers are byte offsets from `&__heap_base` (so `heap_base = 0`);
`Option Nat` distinguishes null.  On a 32-bit WebAssembly target
`sizeof(HeapBlockHeader)` is 12 (`u8 flags` + padding, `usize size`,
`HeapBlockHeader *prev_block`) and `sizeof(FreeHeapBlockHeader)` is 20
(two extra pointers).

A `Header` value collects all fields that the source ever reads or writes
at a header address, including the free-list links of
`FreeHeapBlockHeader` (the source freely casts between the two header
types, and reads the links even from allocated blocks).  The `flags` byte
is modelled by its only observed bit, `free`. -/

def headerSize : Nat := 12

def freeHeaderSize : Nat := 20

structure Header where
  free : Bool := false
  bsize : Nat := 0
  prev_block : Option Nat := none
  prev_free : Option Nat := none
  next_free : Option Nat := none
deriving Repr, DecidableEq

instance : Inhabited Header := ⟨{}⟩

/-- Allocator state: the globals `heap_end`, `first_free_block`,
`last_block` of `namespace slaw::mem`, plus the heap memory seen as a map
from header addresses to header contents. -/
structure Heap where
  heap_end : Nat
  first_free_block : Option Nat
  last_block : Option Nat
  mem : Nat → Header

/-- The state before any allocation: `heap_end = &__heap_base`,
`first_free_block = nullptr`, `last_block = nullptr`. -/
def initialHeap : Heap :=
  { heap_end := 0, first_free_block := none, last_block := none,
    mem := fun _ => {} }

/-- Store a header at an address (a C++ write through a header pointer). -/
def writeMem (m : Nat → Header) (a : Nat) (h : Header) : Nat → Header :=
  fun x => if x = a then h else m x

/-- Method `HeapBlockHeader::get_end_ptr()`:
`(u8 *) this + sizeof(HeapBlockHeader) + size`. -/
def endPtr (m : Nat → Header) (a : Nat) : Nat :=
  a + headerSize + (m a).bsize

/-- Method `FreeHeapBlockHeader::remove_from_free_block_list()`: patch the
neighbours' links past this block (this block's own fields are not
written). -/
def remove_from_free_block_list (m : Nat → Header) (b : Nat) :
    Nat → Header :=
  let hb := m b
  let m1 := match hb.prev_free with
    | none => m
    | some p => writeMem m p { m p with next_free := hb.next_free }
  match hb.next_free with
  | none => m1
  | some n => writeMem m1 n { m1 n with prev_free := hb.prev_free }

/-- Function `slaw::mem::alloc_end(size)`: place a header at `heap_end`,
advance `heap_end` by `sizeof(HeapBlockHeader) + size`, mark allocated,
link `prev_block` to the outgoing `last_block`, make this the new
`last_block`, and return the payload pointer. -/
def alloc_end (st : Heap) (size : Nat) : Heap × Nat :=
  let header := st.heap_end
  ({ heap_end := st.heap_end + headerSize + size,
     first_free_block := st.first_free_block,
     last_block := some header,
     mem := writeMem st.mem header
       { st.mem header with
           bsize := size, free := false, prev_block := st.last_block } },
   header + headerSize)

/-- The first-fit scan of `slaw::mem::alloc`:
`while (free_block != nullptr && free_block->size < size)
free_block = free_block->next_free_block;`. -/
def findFit (m : Nat → Header) (size : Nat) : Nat → Option Nat → Option Nat
  | _, none => none
  | 0, some _ => none
  | fuel + 1, some b =>
    if (m b).bsize < size then findFit m size fuel (m b).next_free
    else some b

/-- Function `slaw::mem::alloc(size)`: round the request up to
`sizeof(FreeHeapBlockHeader)`, first-fit scan the free list (tail-extend
when the list is empty or nothing fits), then either split the fitting
block (carving the allocation off its upper end) or take it whole. -/
def alloc (fuel : Nat) (st : Heap) (size0 : Nat) : Heap × Nat :=
  let size := if size0 < freeHeaderSize then freeHeaderSize else size0
  match st.first_free_block with
  | none => alloc_end st size
  | some ff =>
    match findFit st.mem size fuel (some ff) with
    | none => alloc_end st size
    | some free_block =>
      if (st.mem free_block).bsize - size ≥ headerSize then
        -- split: `new_block = free_block->get_end_ptr() - size - header`
        let new_block :=
          free_block + headerSize + (st.mem free_block).bsize
            - size - headerSize
        let m := writeMem st.mem new_block
          { st.mem new_block with
              bsize := size, free := false,
              prev_block := some free_block }
        let m := writeMem m free_block
          { m free_block with
              bsize := (m free_block).bsize - headerSize - size }
        let next_block := new_block + headerSize + size
        let m := writeMem m next_block
          { m next_block with prev_block := some new_block }
        ({ st with mem := m }, new_block + headerSize)
      else
        -- whole-take: unlink, mark allocated, fix `first_free_block`
        let m := remove_from_free_block_list st.mem free_block
        let m := writeMem m free_block { m free_block with free := false }
        let st' : Heap := { st with mem := m }
        let st' := if free_block = ff then
            { st' with first_free_block := (st'.mem free_block).next_free }
          else st'
        (st', free_block + headerSize)

/-- Function `slaw::mem::merge_two_free_blocks(block1, block2)`: rewrite
the post-`block2` block's `prev_block` to `block1`, then grow `block1` by
`block2->size + sizeof(HeapBlockHeader)`, then unlink `block2`. -/
def merge_two_free_blocks (m : Nat → Header) (b1 b2 : Nat) : Nat → Header :=
  let next_block := b2 + headerSize + (m b2).bsize
  let m := writeMem m next_block { m next_block with prev_block := some b1 }
  let m := writeMem m b1
    { m b1 with bsize := (m b1).bsize + (m b2).bsize + headerSize }
  remove_from_free_block_list m b2

/-- Function `slaw::mem::merge_three_free_blocks(block1, block2, block3)`.
Note that the source grows `block1` by
`block2->size + block3->size + sizeof(FreeHeapBlockHeader) * 2`, i.e. by
two FREE-header sizes (20 each), not two plain header sizes (12 each). -/
def merge_three_free_blocks (m : Nat → Header) (b1 b2 b3 : Nat) :
    Nat → Header :=
  let next_block := b3 + headerSize + (m b3).bsize
  let m := writeMem m next_block { m next_block with prev_block := some b1 }
  let m := writeMem m b1
    { m b1 with
        bsize := (m b1).bsize + (m b2).bsize + (m b3).bsize
          + freeHeaderSize * 2 }
  let m := remove_from_free_block_list m b2
  remove_from_free_block_list m b3

/-- Function `slaw::mem::maybe_merge_free_blocks(block)`: examine the two
physical neighbours (`prev_exists = prev_block != nullptr`,
`next_exists = get_end_ptr() != heap_end`) and merge with whichever are
free. -/
def maybe_merge_free_blocks (st : Heap) (block : Nat) : Heap :=
  let m := st.mem
  let next_block := block + headerSize + (m block).bsize
  let next_ok : Bool := next_block != st.heap_end && (m next_block).free
  match (m block).prev_block with
  | some prev =>
    if (m prev).free && next_ok then
      { st with mem := merge_three_free_blocks m prev block next_block }
    else if (m prev).free then
      { st with mem := merge_two_free_blocks m prev block }
    else if next_ok then
      { st with mem := merge_two_free_blocks m block next_block }
    else st
  | none =>
    if next_ok then
      { st with mem := merge_two_free_blocks m block next_block }
    else st

/-- The predecessor search of `slaw::mem::free`:
`search = block->prev_block; while (!search->is_free())
search = search->prev_block;`.  Running off the chain (a null
dereference in C++) yields `none`. -/
def searchPrevFree (m : Nat → Header) : Nat → Option Nat → Option Nat
  | _, none => none
  | 0, some _ => none
  | fuel + 1, some s =>
    if (m s).free then some s else searchPrevFree m fuel (m s).prev_block

/-- Function `slaw::mem::free(ptr)` (`src/mem.hpp:441-554`), translated
branch for branch:
1. already free → return;
2. set the free bit;
3. empty free list → install as sole member and return;
4. `block < first_free_block` → prepend, merge, return;
5. `block->get_end_ptr() >= heap_end` → tail path.  The source tests
   `block->prev_block != nullptr && block->is_free()` here — the second
   conjunct reads the block's OWN free bit (set in step 2, so always
   true), not the predecessor's;
6. otherwise → find the previous free block, splice in after it, merge. -/
def free (fuel : Nat) (st : Heap) (ptr : Nat) : Heap :=
  let block := ptr - headerSize
  if (st.mem block).free then st
  else
    let st : Heap :=
      { st with
          mem := writeMem st.mem block
            { st.mem block with free := true } }
    match st.first_free_block with
    | none =>
      { st with
          first_free_block := some block,
          mem := writeMem st.mem block
            { st.mem block with prev_free := none, next_free := none } }
    | some ff =>
      if block < ff then
        let m := writeMem st.mem ff
          { st.mem ff with prev_free := some block }
        let m := writeMem m block
          { m block with next_free := some ff, prev_free := none }
        maybe_merge_free_blocks
          { st with mem := m, first_free_block := some block } block
      else if block + headerSize + (st.mem block).bsize ≥ st.heap_end then
        match (st.mem block).prev_block, (st.mem block).free with
        | some prev_block, true =>
          { st with
              mem := remove_from_free_block_list st.mem prev_block,
              heap_end := prev_block }
        | some _, false => { st with heap_end := block }
        | none, _ => { st with heap_end := block }
      else
        match searchPrevFree st.mem fuel (st.mem block).prev_block with
        | none => st
        | some prev_free_block =>
          let nf := (st.mem prev_free_block).next_free
          let m := writeMem st.mem block
            { st.mem block with
                prev_free := some prev_free_block, next_free := nf }
          let m := match nf with
            | some n => writeMem m n { m n with prev_free := some block }
            | none => m
          let m := writeMem m prev_free_block
            { m prev_free_block with next_free := some block }
          maybe_merge_free_blocks { st with mem := m } block

/-- Invariant I1 as an executable check: walking the physical chain from
`heap_base` (offset 0) by `this + header_size + payload_size` reaches
exactly `heap_end`. -/
def chainReaches (st : Heap) : Nat → Nat → Bool
  | 0, a => a = st.heap_end
  | fuel + 1, a =>
    if a = st.heap_end then true
    else if a > st.heap_end then false
    else chainReaches st fuel (a + headerSize + (st.mem a).bsize)

/-! ## `String::from_float` special cases (`src/string.hpp`,
`src/types.hpp`)

Floating point values are modelled by their IEEE-754 bit patterns (a
`Nat`), exactly the view the source itself takes through
`interpret_float_as_int`.  The comparisons the special-case code performs
have these bit-level meanings:
* `f == 0` holds iff all non-sign bits are clear (`+0` and `-0` compare
  equal; a NaN compares unequal to everything, and indeed has a non-zero
  exponent field);
* `f == Infinity<T>()` (resp. `-Infinity<T>()`) holds iff `f` is exactly
  that infinity: each infinity has a unique bit pattern, distinct values
  compare unequal, and a NaN compares unequal to everything. -/

def f32_bits_is_zero (bits : Nat) : Bool := bits % 2 ^ 31 = 0

/-- Function `slaw::detail::stored_sign(f32)`: bit 31. -/
def f32_stored_sign (bits : Nat) : Bool := bits / 2 ^ 31 % 2 = 1

/-- Function `slaw::detail::stored_exponent(f32)`: bits 23..30, minus the
bias 127. -/
def f32_stored_exponent (bits : Nat) : Int :=
  (bits / 2 ^ 23 % 2 ^ 8 : Nat) - 127

/-- Function `slaw::detail::stored_mantissa(f32)`: bits 0..22. -/
def f32_stored_mantissa (bits : Nat) : Nat := bits % 2 ^ 23

/-- Function `slaw::is_nan(f32)`:
`stored_exponent(value) == 128 && stored_mantissa(value) != 0`. -/
def f32_is_nan (bits : Nat) : Bool :=
  f32_stored_exponent bits = 128 && f32_stored_mantissa bits != 0

/-- Constant `slaw::Infinity32` = bits `0x7F800000`. -/
def f32_infinity_bits : Nat := 0x7F800000

/-- Bit pattern of `-Infinity32`. -/
def f32_neg_infinity_bits : Nat := 0xFF800000

/-- The special-case prologue of `String::from_float<f32>`
(`src/string.hpp:755-782`); `none` means execution falls through to the
general digit-extraction path (not modelled here). -/
def from_float32 (bits : Nat) : Option String :=
  if f32_bits_is_zero bits then
    if f32_stored_sign bits = false then some ("0") else some ("-0")
  else if f32_is_nan bits then some ("NaN")
  else if bits = f32_infinity_bits then some ("Infinity")
  else if bits = f32_neg_infinity_bits then some ("-Infinity")
  else none

def f64_bits_is_zero (bits : Nat) : Bool := bits % 2 ^ 63 = 0

/-- Function `slaw::detail::stored_sign(f64)`: bit 63. -/
def f64_stored_sign (bits : Nat) : Bool := bits / 2 ^ 63 % 2 = 1

/-- Function `slaw::detail::stored_exponent(f64)`: bits 52..62, minus the
bias 1023. -/
def f64_stored_exponent (bits : Nat) : Int :=
  (bits / 2 ^ 52 % 2 ^ 11 : Nat) - 1023

/-- Function `slaw::detail::stored_mantissa(f64)`: bits 0..51. -/
def f64_stored_mantissa (bits : Nat) : Nat := bits % 2 ^ 52

/-- Function `slaw::is_nan(f64)`:
`stored_exponent(value) == 1024 && stored_mantissa(value) != 0`. -/
def f64_is_nan (bits : Nat) : Bool :=
  f64_stored_exponent bits = 1024 && f64_stored_mantissa bits != 0

/-- Constant `slaw::Infinity64` = bits `0x7FF0000000000000`. -/
def f64_infinity_bits : Nat := 0x7FF0000000000000

/-- Bit pattern of `-Infinity64`. -/
def f64_neg_infinity_bits : Nat := 0xFFF0000000000000

/-- The special-case prologue of `String::from_float<f64>`
(`src/string.hpp:755-782`); `none` means execution falls through to the
general digit-extraction path (not modelled here). -/
def from_float64 (bits : Nat) : Option String :=
  if f64_bits_is_zero bits then
    if f64_stored_sign bits = false then some ("0") else some ("-0")
  else if f64_is_nan bits then some ("NaN")
  else if bits = f64_infinity_bits then some ("Infinity")
  else if bits = f64_neg_infinity_bits then some ("-Infinity")
  else none

/-! ## Concrete allocator traces used by the refutations

All requests are for 1 byte, which `alloc` rounds up to
`sizeof(FreeHeapBlockHeader) = 20`, so each block occupies
`12 + 20 = 32` bytes and consecutive tail-extended headers sit at offsets
0, 32, 64, 96. -/

/-- From the empty heap: `p = alloc(1)` (header at 0, payload at 12). -/
def allocOnce : Heap × Nat := alloc 100 initialHeap 1

/-- Then `free(p)`: the trace for C1. -/
def allocOnceFreed : Heap := free 100 allocOnce.1 allocOnce.2

/-- From the empty heap: block A (header 0). -/
def allocA : Heap × Nat := alloc 100 initialHeap 1

/-- Block B (header 32). -/
def allocB : Heap × Nat := alloc 100 allocA.1 1

/-- Block C (header 64); `heap_end = 96`. -/
def allocC : Heap × Nat := alloc 100 allocB.1 1

/-- Free A: the free list becomes `[A]`; B and C stay allocated. -/
def freedA : Heap := free 100 allocC.1 allocA.2

/-- Free C (topmost, predecessor B allocated, free list non-empty):
the trace for C2. -/
def freedC : Heap := free 100 freedA allocC.2

/-- Block Q (header 96) on top of A,B,C; `heap_end = 128`.  For the C4
trace read A,B,C as P (header 0), X (header 32), S (header 64). -/
def allocQ : Heap × Nat := alloc 100 allocC.1 1

/-- Free P: sole free-list entry. -/
def freedP : Heap := free 100 allocQ.1 allocA.2

/-- Free S: the free list becomes `[P, S]`; X in between stays
allocated, Q keeps S away from the heap end. -/
def freedS : Heap := free 100 freedP allocC.2

/-- Free X: both physical neighbours of X are free, so
`merge_three_free_blocks(P, X, S)` runs: the trace for C4. -/
def freedX : Heap := free 100 freedS allocB.2

/-! ## Concrete vector values used by the refutations -/

/-- A one-element vector `[7]` with the default capacity 16. -/
def attachA : Vec Nat := ⟨7 :: List.replicate 15 0, 1, 16⟩

/-- A one-element vector `[9]` with the default capacity 16. -/
def attachB : Vec Nat := ⟨9 :: List.replicate 15 0, 1, 16⟩

/-- The six-element sequence `[0,1,2,3,4,5]` of the spec's rotation
scenario. -/
def rotVec : Vec Nat := ⟨[0, 1, 2, 3, 4, 5], 6, 6⟩

/-- A heap whose block at header offset 0 is free (payload pointer 12):
witness input for the double-free claim. -/
def freeHeapOneBlock : Heap :=
  { heap_end := 32, first_free_block := some 0, last_block := some 0,
    mem := fun _ => { free := true, bsize := 20 } }

/-! ## Helper lemmas -/

/-- Doubling a zero capacity never makes progress:
`growCap fuel n 0 = none` whenever `0 < n`. -/
theorem growCap_zero_stuck : ∀ fuel new_size, 0 < new_size →
    growCap fuel new_size 0 = none
  | 0, n, h => by simp [growCap, h]
  | fuel + 1, n, h => by
    simp only [growCap, if_pos h, Nat.zero_mul]
    exact growCap_zero_stuck fuel n h

/-! ## The claims -/

/-- C1: REFUTED (code bug).  The claim says that in every reachable
allocator state a free topmost block is never present (`heap_end` equals
its header address), and that a fully-freed workload returns `heap_end`
to `heap_base`.  Already after the two-step workload `p = alloc(1);
free(p)` from the empty heap, `free` takes the empty-free-list branch
(`src/mem.hpp:463-471`), installs the topmost block as the sole free-list
entry and returns WITHOUT shrinking the heap: the topmost block
(`last_block`, header at offset 0) is free, yet `heap_end = 32`, not 0
(= `heap_base`). -/
theorem alloc_free_leaves_topmost_free_block_present :
    allocOnceFreed.last_block = some 0 ∧
    (allocOnceFreed.mem 0).free = true ∧
    allocOnceFreed.heap_end = 32 ∧
    allocOnceFreed.first_free_block = some 0 := by
  decide

/-- C2: REFUTED (code bug).  Trace: allocate A (header 0), B (header 32),
C (header 64); free A; free C.  When C is freed it is topmost
(`end = heap_end = 96`) and the free list `[A]` is non-empty, and C's
physical predecessor B is still ALLOCATED.  The claim says `heap_end`
must become C's header address (64) and `last_block` must become B.  The
code (`src/mem.hpp:502`) tests `block->is_free()` — the freed block's own
bit, just set — instead of the predecessor's, so it unlinks the allocated
predecessor B and sets `heap_end` to B's header (32), discarding the live
block B; and it never updates `last_block`, which still names C (64),
now beyond `heap_end`. -/
theorem free_topmost_discards_allocated_predecessor :
    (freedA.heap_end = 96 ∧ endPtr freedA.mem 64 = 96 ∧
      (freedA.mem 64).prev_block = some 32 ∧
      (freedA.mem 32).free = false ∧
      freedA.first_free_block = some 0) ∧
    freedC.heap_end = 32 ∧
    (freedC.mem 32).free = false ∧
    freedC.last_block = some 64 ∧
    freedC.first_free_block = some 0 := by
  decide

/-- C3: REFUTED (code bug).  `Vector::attach` (`src/vector.hpp:415`) ends
with `size = vector.size;`, overwriting the size that the copy loop had
already advanced.  Attaching `[9]` to `[7]` does place the elements
`7, 9` in order, but leaves `size = 1` instead of `1 + 1 = 2`; attaching
an empty vector resets `size` to 0 instead of leaving the vector
unchanged. -/
theorem attach_overwrites_size :
    Vec.attach 100 attachA attachB =
      some ⟨[7, 9] ++ List.replicate 14 0, 1, 16⟩ ∧
    Vec.attach 100 attachA (Vec.mkNew 16) =
      some ⟨7 :: List.replicate 15 0, 0, 16⟩ := by
  decide

/-- C4: REFUTED (code bug).  Trace: allocate P, X, S, Q (headers 0, 32,
64, 96, each of payload 20, `heap_end = 128`); free P; free S; free X.
Freeing X finds both physical neighbours free and runs
`merge_three_free_blocks(P, X, S)` (`src/mem.hpp:382`), which grows P's
payload by `X.size + S.size + sizeof(FreeHeapBlockHeader) * 2`
= 20 + 20 + 40 = 80 — not by `2 * header_size + X.size + S.size`
= 24 + 40 = 64 as the claim states.  P's payload becomes 100 instead of
84, so the physical chain walked from `heap_base` overshoots the header
of the still-live block Q (96) and no longer reaches `heap_end`
(`chainReaches` held before the merge and fails after). -/
theorem merge_three_overgrows_predecessor :
    ((freedS.mem 0).bsize = 20 ∧ (freedS.mem 0).free = true ∧
      (freedS.mem 32).free = false ∧ (freedS.mem 64).free = true ∧
      freedS.heap_end = 128 ∧ chainReaches freedS 20 0 = true) ∧
    (freedX.mem 0).bsize = 100 ∧
    chainReaches freedX 20 0 = false := by
  decide

/-- C5: REFUTED (code bug).  `Vector::clear` leaves `capacity = 0`, a
reachable state; `Vector::reserve(extra)` with `size + extra > capacity`
runs `new_capacity = capacity * 2; while (new_size > new_capacity)
new_capacity *= 2;` (`src/vector.hpp:319-325`).  Starting from capacity
0 the doubling never makes progress (`0 * 2 = 0`), so the loop never
terminates: for every fuel bound the loop is still running, modelled as
`reserve = none`. -/
theorem reserve_diverges_from_capacity_zero (fuel : Nat) (v : Vec Nat) :
    Vec.reserve fuel (Vec.clear v) 1 = none := by
  have h := growCap_zero_stuck fuel 1 (by decide)
  simp [Vec.reserve, Vec.clear, h]

/-- The divergence of C5 exercised on a concrete input: reserving one
element on a cleared default vector makes no progress at fuel 5. -/
theorem reserve_diverges_from_capacity_zero_witness :
    Vec.reserve 5 (Vec.clear (Vec.mkNew 16 : Vec Nat)) 1 = none :=
  reserve_diverges_from_capacity_zero 5 (Vec.mkNew 16)

/-- C6: REFUTED (code bug).  `rotate(2)` on `[0,1,2,3,4,5]` does produce
`[2,3,4,5,0,1]`, but `shift %= size` (`src/vector.hpp:556`) converts the
`isize` shift to `u32` before the modulo, so `rotate(-2)` normalises to
`(2^32 - 2) % 6 = 2` — a LEFT rotation by 2 instead of a right rotation
by 2.  Hence `rotate(2)` then `rotate(-2)` yields `[4,5,0,1,2,3]`, not
the original sequence, refuting `rotate(k) ∘ rotate(-k) = identity` for
`|k| ≤ size`. -/
theorem rotate_negative_shift_not_inverse :
    (rotVec.rotate 2).data = [2, 3, 4, 5, 0, 1] ∧
    ((rotVec.rotate 2).rotate (-2)).data = [4, 5, 0, 1, 2, 3] ∧
    (rotVec.rotate 2).rotate (-2) ≠ rotVec := by
  decide

/-- C7: REFUTED (code bug).  `Vector::fill(n, v)`
(`src/vector.hpp:832-843`) constructs `Vector<T> result(n)` — whose
constructor sets `size = 0`, `capacity = n` — writes the `n` values
through `operator[]`, and returns `result` without ever updating
`result.size`.  `fill(3, 7)` therefore returns a vector of size 0
(capacity 3), not of length 3 as claimed, even though the backing array
holds `[7, 7, 7]`. -/
theorem fill_returns_size_zero :
    (Vec.fill 3 (7 : Nat)).size = 0 ∧
    (Vec.fill 3 (7 : Nat)).capacity = 3 ∧
    (Vec.fill 3 (7 : Nat)).data = [7, 7, 7] := by
  decide

/-- C8: CONFIRMED.  `slaw::mem::free(ptr)` reads the header just below
the payload pointer and returns immediately when its free bit is already
set (`src/mem.hpp:451-454`), before any state is written: a double free
leaves the whole allocator state — `heap_end`, `first_free_block`,
`last_block`, and every header and free-list link — unchanged. -/
theorem free_is_noop_on_free_block (fuel : Nat) (st : Heap) (ptr : Nat)
    (h : (st.mem (ptr - headerSize)).free = true) :
    free fuel st ptr = st := by
  unfold free
  simp [h]

/-- Witness for C8: a double free on a concrete one-block heap returns
the state unchanged. -/
theorem free_is_noop_on_free_block_witness :
    free 0 freeHeapOneBlock 12 = freeHeapOneBlock :=
  free_is_noop_on_free_block 0 freeHeapOneBlock 12 rfl

/-- C9: CONFIRMED.  The special-case prologue of `String::from_float`
(`src/string.hpp:755-782`) returns `"0"` for `+0`, `"-0"` for `-0`,
`"NaN"` for every NaN bit pattern, `"Infinity"` for `+∞` and
`"-Infinity"` for `-∞`, in both the 32-bit and the 64-bit
instantiation. -/
theorem from_float_special_cases :
    from_float32 0x00000000 = some ("0") ∧
    from_float32 0x80000000 = some ("-0") ∧
    from_float32 f32_infinity_bits = some ("Infinity") ∧
    from_float32 f32_neg_infinity_bits = some ("-Infinity") ∧
    (∀ bits, f32_is_nan bits = true → from_float32 bits = some ("NaN")) ∧
    from_float64 0x0000000000000000 = some ("0") ∧
    from_float64 0x8000000000000000 = some ("-0") ∧
    from_float64 f64_infinity_bits = some ("Infinity") ∧
    from_float64 f64_neg_infinity_bits = some ("-Infinity") ∧
    (∀ bits, f64_is_nan bits = true → from_float64 bits = some ("NaN")) := by
  refine ⟨by decide, by decide, by decide, by decide, ?_,
    by decide, by decide, by decide, by decide, ?_⟩
  · intro bits h
    have hparts := (Bool.and_eq_true _ _).mp h
    have hman : f32_stored_mantissa bits ≠ 0 := by
      simpa using hparts.2
    have hz : f32_bits_is_zero bits = false := by
      simp only [f32_bits_is_zero, decide_eq_false_iff_not]
      intro hzz
      apply hman
      have hdvd : (2 : Nat) ^ 23 ∣ 2 ^ 31 := pow_dvd_pow 2 (by norm_num)
      simp only [f32_stored_mantissa]
      rw [← Nat.mod_mod_of_dvd bits hdvd, hzz, Nat.zero_mod]
    simp [from_float32, hz, h]
  · intro bits h
    have hparts := (Bool.and_eq_true _ _).mp h
    have hman : f64_stored_mantissa bits ≠ 0 := by
      simpa using hparts.2
    have hz : f64_bits_is_zero bits = false := by
      simp only [f64_bits_is_zero, decide_eq_false_iff_not]
      intro hzz
      apply hman
      have hdvd : (2 : Nat) ^ 52 ∣ 2 ^ 63 := pow_dvd_pow 2 (by norm_num)
      simp only [f64_stored_mantissa]
      rw [← Nat.mod_mod_of_dvd bits hdvd, hzz, Nat.zero_mod]
    simp [from_float64, hz, h]

/-- Witness for C9: the canonical quiet-NaN patterns (`slaw::NaN32`,
`slaw::NaN64`) render as `"NaN"`. -/
theorem from_float_special_cases_witness :
    from_float32 0x7FC00000 = some ("NaN") ∧
    from_float64 0x7FF8000000000000 = some ("NaN") :=
  ⟨from_float_special_cases.2.2.2.2.1 0x7FC00000 (by decide),
   from_float_special_cases.2.2.2.2.2.2.2.2.2 0x7FF8000000000000
     (by decide)⟩

/-- C10: CONFIRMED.  Both `Vector::operator=` overloads guard with
`if (this == &source) return *this;` (`src/vector.hpp:99-102, 138-141`)
before the `delete[]`, so assigning a vector to itself — by copy or by
move — leaves `data`, `size`, `capacity` and all elements unchanged and
frees no backing storage. -/
theorem self_assignment_noop (v : Vec Nat) :
    Vec.copyAssign v v true = (v, []) ∧
    Vec.moveAssign v v true = (v, v, []) :=
  ⟨rfl, rfl⟩

/-- Witness for C10: self-assignment of a concrete fresh vector. -/
theorem self_assignment_noop_witness :
    Vec.copyAssign (Vec.mkNew 16 : Vec Nat) (Vec.mkNew 16) true =
      (Vec.mkNew 16, []) ∧
    Vec.moveAssign (Vec.mkNew 16 : Vec Nat) (Vec.mkNew 16) true =
      (Vec.mkNew 16, Vec.mkNew 16, []) :=
  self_assignment_noop (Vec.mkNew 16)

end Slaw
